import Mathlib

/-
  Verification development for the human-as-tool backend.

  Shallow embedding of the delivery-and-consistency core:
  - `CircuitBreaker` from services/channels/base_channel.py
  - feedback storage and first-valid-wins resolution from
    services/state_sync.py, services/session_service.py and
    storage/memory_store.py
  - the multi-level rate limiter from services/rate_limiter.py
  - the orchestrator send loop from services/channel_orchestrator.py

  Python dicts are embedded as association lists with in-place update
  (`dset`), which preserves insertion order exactly as CPython dicts do.
  Wall-clock instants (`datetime.now(timezone.utc)`) are threaded as
  explicit `Int` epoch-second parameters.  Exceptions are embedded as
  `Except` results paired with the store state at the moment of the raise.
-/

namespace HumanAsTool

/-! ## Enumerations (models/base.py) -/

inductive SessionStatus
  | active
  | paused
  | ended
deriving DecidableEq, Repr

inductive MessageType
  | user
  | agent
  | system
deriving DecidableEq, Repr

inductive MessageStatus
  | sent
  | delivered
  | read
  | failed
deriving DecidableEq, Repr

inductive FeedbackType
  | approval
  | input
deriving DecidableEq, Repr

inductive FeedbackStatus
  | pending
  | approved
  | rejected
  | expired
deriving DecidableEq, Repr

inductive ChannelType
  | websocket
  | email
  | slack
deriving DecidableEq, Repr

inductive ChannelStatus
  | active
  | inactive
  | error
  | reconnecting
deriving DecidableEq, Repr

/-- Circuit breaker states (base_channel.py `CircuitState`).  `opened`
models the Python member `OPEN` (`open` is a Lean keyword). -/
inductive CircuitState
  | closed
  | opened
  | half_open
deriving DecidableEq, Repr

/-! ## Python dict embedding -/

/-- Python dict lookup `d.get(k)` over an insertion-ordered association
list. -/
def dget {α : Type} : List (String × α) → String → Option α
  | [], _ => none
  | (k1, v1) :: rest, k => if k1 = k then some v1 else dget rest k

/-- Python dict assignment `d[k] = v`: replaces in place when the key is
present, appends otherwise (CPython insertion-order semantics). -/
def dset {α : Type} : List (String × α) → String → α → List (String × α)
  | [], k, v => [(k, v)]
  | (k1, v1) :: rest, k, v =>
      if k1 = k then (k, v) :: rest else (k1, v1) :: dset rest k v

/-! ## Circuit breaker (services/channels/base_channel.py) -/

structure CircuitBreaker where
  failure_threshold : Nat
  timeout_seconds : Int
  half_open_max_calls : Nat
  state : CircuitState
  failure_count : Nat
  last_failure_time : Option Int
  half_open_calls : Nat
deriving DecidableEq, Repr

/-- `CircuitBreaker.__init__` with the default arguments
(`failure_threshold=5`, `timeout_seconds=60`, `half_open_max_calls=3`). -/
def CircuitBreaker.default : CircuitBreaker :=
  { failure_threshold := 5
    timeout_seconds := 60
    half_open_max_calls := 3
    state := CircuitState.closed
    failure_count := 0
    last_failure_time := none
    half_open_calls := 0 }

/-- `CircuitBreaker.can_execute`.  The Python method reads
`datetime.now(timezone.utc)`, passed here as `now`; it can mutate the
breaker (OPEN with an elapsed timeout moves to HALF_OPEN), so it returns
breaker alongside the boolean. -/
def CircuitBreaker.can_execute (cb : CircuitBreaker) (now : Int) :
    Bool × CircuitBreaker :=
  match cb.state with
  | CircuitState.closed => (true, cb)
  | CircuitState.opened =>
      match cb.last_failure_time with
      | some t =>
          if cb.timeout_seconds ≤ now - t then
            (true, { cb with state := CircuitState.half_open, half_open_calls := 0 })
          else
            (false, cb)
      | none => (false, cb)
  | CircuitState.half_open =>
      (decide (cb.half_open_calls < cb.half_open_max_calls), cb)

/-- `CircuitBreaker.record_success`. -/
def CircuitBreaker.record_success (cb : CircuitBreaker) : CircuitBreaker :=
  match cb.state with
  | CircuitState.half_open =>
      { cb with state := CircuitState.closed, failure_count := 0, half_open_calls := 0 }
  | CircuitState.closed => { cb with failure_count := 0 }
  | CircuitState.opened => cb

/-- `CircuitBreaker.record_failure`.  The trailing
`if self.state == HALF_OPEN: half_open_calls += 1` of the source is kept,
including its placement after the state transitions. -/
def CircuitBreaker.record_failure (cb : CircuitBreaker) (now : Int) :
    CircuitBreaker :=
  let cb1 := { cb with
    failure_count := cb.failure_count + 1
    last_failure_time := some now }
  let cb2 :=
    if cb1.state = CircuitState.half_open then
      { cb1 with state := CircuitState.opened, half_open_calls := 0 }
    else if cb1.state = CircuitState.closed then
      if cb1.failure_threshold ≤ cb1.failure_count then
        { cb1 with state := CircuitState.opened }
      else cb1
    else cb1
  if cb2.state = CircuitState.half_open then
    { cb2 with half_open_calls := cb2.half_open_calls + 1 }
  else cb2

/-- A breaker driven to OPEN by five `record_failure` calls at time 0,
with the default configuration. -/
def cb_open_demo : CircuitBreaker :=
  ((((CircuitBreaker.default.record_failure 0).record_failure
      0).record_failure 0).record_failure 0).record_failure 0

/-- First probe at time 60: moves the breaker OPEN → HALF_OPEN. -/
def cb_probe1 : Bool × CircuitBreaker := cb_open_demo.can_execute 60

/-- Second probe in the same half-open episode. -/
def cb_probe2 : Bool × CircuitBreaker := cb_probe1.2.can_execute 60

/-- Third probe in the same half-open episode. -/
def cb_probe3 : Bool × CircuitBreaker := cb_probe2.2.can_execute 60

/-- Fourth probe in the same half-open episode: the claim requires it to be
rejected (`half_open_max_calls = 3`). -/
def cb_probe4 : Bool × CircuitBreaker := cb_probe3.2.can_execute 60

/-! ## Feedback requests and responses
(models/base.py, storage/memory_store.py, services/state_sync.py,
services/session_service.py) -/

structure FeedbackRequest where
  id : String
  session_id : String
  type : FeedbackType
  status : FeedbackStatus
  prompt : String
  created_at : Int
  expires_at : Int
  channels : List ChannelType
deriving DecidableEq, Repr

structure FeedbackResponse where
  id : String
  request_id : String
  content : String
  timestamp : Int
  channel : ChannelType
deriving DecidableEq, Repr

/-- The slice of `MemoryStore` that the feedback paths read and write.
(The `responses` list embedded in the pydantic `FeedbackRequest` is never
consulted by these paths; the store keeps responses in the
`feedback_responses` / `request_responses` dicts.) -/
structure FStore where
  feedback_requests : List (String × FeedbackRequest)
  feedback_responses : List (String × FeedbackResponse)
  request_responses : List (String × List String)
deriving DecidableEq, Repr

/-- Python `str.upper()`, embedded as the ASCII character-wise uppercase
map (all contents the feedback paths compare are ASCII). -/
def py_upper (s : String) : String := String.mk (s.data.map Char.toUpper)

/-- Python `str.lower()`, embedded as the ASCII character-wise lowercase
map. -/
def py_lower (s : String) : String := String.mk (s.data.map Char.toLower)

/-- `MemoryStore.get_feedback_request`. -/
def get_feedback_request (s : FStore) (request_id : String) :
    Option FeedbackRequest :=
  dget s.feedback_requests request_id

/-- `MemoryStore.update_feedback_request`: writes only when the id is
already present. -/
def update_feedback_request (s : FStore) (feedback_request : FeedbackRequest) :
    FStore :=
  if (dget s.feedback_requests feedback_request.id).isSome then
    { s with feedback_requests := dset s.feedback_requests feedback_request.id feedback_request }
  else s

/-- `MemoryStore.create_feedback_response`: stores the response and appends
its id to the per-request index (creating the entry when missing). -/
def create_feedback_response (s : FStore) (feedback_response : FeedbackResponse) :
    FStore :=
  let new_responses := dset s.feedback_responses feedback_response.id feedback_response
  let new_index :=
    match dget s.request_responses feedback_response.request_id with
    | some ids =>
        dset s.request_responses feedback_response.request_id (ids ++ [feedback_response.id])
    | none =>
        dset s.request_responses feedback_response.request_id [feedback_response.id]
  { s with feedback_responses := new_responses, request_responses := new_index }

/-- `MemoryStore.get_request_responses`. -/
def get_request_responses (s : FStore) (request_id : String) :
    List FeedbackResponse :=
  ((dget s.request_responses request_id).getD []).filterMap
    (dget s.feedback_responses)

/-- `StateSyncService.process_feedback_response`: first-valid-wins
resolution.  Returns the Python boolean paired with the store after the
call.  Note the late-response branch returns without storing anything. -/
def process_feedback_response (s : FStore) (request_id : String)
    (response : FeedbackResponse) : Bool × FStore :=
  match get_feedback_request s request_id with
  | none => (false, s)
  | some feedback_request =>
      if feedback_request.status ≠ FeedbackStatus.pending then (false, s)
      else
        let existing_responses := get_request_responses s request_id
        if existing_responses.isEmpty then
          let s1 := create_feedback_response s response
          let new_status :=
            if ["APPROVE", "APPROVED", "YES"].contains (py_upper response.content) then
              FeedbackStatus.approved
            else if ["REJECT", "REJECTED", "NO"].contains (py_upper response.content) then
              FeedbackStatus.rejected
            else
              FeedbackStatus.approved
          (true, update_feedback_request s1
            { feedback_request with status := new_status })
        else (false, s)

/-- A sequence of `process_feedback_response` calls, folded over the
store. -/
def process_all (s : FStore) (calls : List (String × FeedbackResponse)) :
    FStore :=
  calls.foldl (fun st c => (process_feedback_response st c.1 c.2).2) s

/-- `FeedbackResponseValidator.validate_create`.  Python tests
`not content or not content.strip()`; the empty string also has an empty
strip, so a single trimmed-emptiness test is equivalent. -/
def validate_response_create (feedback_response : FeedbackResponse)
    (request_status : FeedbackStatus) : Except String Unit :=
  if feedback_response.request_id = "" then
    Except.error "FeedbackResponse must have a valid request_id"
  else if feedback_response.content.trim = "" then
    Except.error "FeedbackResponse content cannot be empty"
  else if request_status ≠ FeedbackStatus.pending then
    Except.error "Cannot respond to a non-pending feedback request"
  else
    Except.ok ()

/-- `SessionService.submit_feedback_response`.  The `uuid4()` for the new
response and `datetime.now(timezone.utc)` are passed in as `new_id` and
`now`.  Raised `ValidationError`s are the `Except.error` results, paired
with the store as mutated up to the raise. -/
def submit_feedback_response (s : FStore) (now : Int)
    (request_id content : String) (channel : ChannelType) (new_id : String) :
    Except String FeedbackResponse × FStore :=
  match get_feedback_request s request_id with
  | none => (Except.error "FeedbackRequest not found", s)
  | some request =>
      if request.status ≠ FeedbackStatus.pending then
        (Except.error "FeedbackRequest already processed", s)
      else if request.expires_at < now then
        (Except.error "FeedbackRequest has expired",
         update_feedback_request s { request with status := FeedbackStatus.expired })
      else
        let response : FeedbackResponse :=
          { id := new_id, request_id := request_id, content := content,
            timestamp := now, channel := channel }
        match validate_response_create response request.status with
        | Except.error e => (Except.error e, s)
        | Except.ok _ =>
            let s1 := create_feedback_response s response
            let new_status :=
              if request.type = FeedbackType.approval then
                if ["yes", "approve", "approved", "confirm"].contains (py_lower content) then
                  FeedbackStatus.approved
                else FeedbackStatus.rejected
              else FeedbackStatus.approved
            (Except.ok response,
             update_feedback_request s1 { request with status := new_status })

/-! ## Rate limiter (services/rate_limiter.py, storage/memory_store.py)

Keys are built in Python as `"rate_limit:" + level + ":" + identifier`;
the three levels use the distinct prefixes `user:`, `session:` and
`channel:`, so keys of different levels are always distinct strings.  The
embedding uses an inductive key type with one constructor per level, which
preserves exactly that cross-level distinctness. -/

inductive RLKey
  | user (user_id : String)
  | session (session_id : String)
  | channel (channel : String) (user_id : String)
deriving DecidableEq, Repr

/-- `MemoryStore.rate_limits`: key → list of event timestamps.  A missing
dict entry and an empty list are interchangeable in the source (the first
touch installs `[]`), so the embedding uses a total function with default
`[]`. -/
structure RLStore where
  rate_limits : RLKey → List Int

/-- The `RateLimiter` class constants. -/
def USER_LIMIT : Nat := 30

def SESSION_LIMIT : Nat := 10

def CHANNEL_LIMIT : Nat := 20

def WINDOW_SECONDS : Int := 60

/-- `MemoryStore.check_rate_limit`: prunes timestamps older than the
window, then either rejects (limit reached, nothing consumed) or appends
`now` (one token consumed). -/
def check_rate_limit (st : RLStore) (now : Int) (key : RLKey) (limit : Nat)
    (window_seconds : Int) : Bool × RLStore :=
  let cutoff := now - window_seconds
  let pruned := (st.rate_limits key).filter (fun ts => cutoff < ts)
  if limit ≤ pruned.length then
    (false, { rate_limits := fun k => if k = key then pruned else st.rate_limits k })
  else
    (true, { rate_limits := fun k => if k = key then pruned ++ [now] else st.rate_limits k })

structure RateLimitStatus where
  limit : Nat
  remaining : Nat
  reset_at : Int
  window_seconds : Int
deriving DecidableEq, Repr

/-- `MemoryStore.get_rate_limit_status` (read-only). -/
def get_rate_limit_status (st : RLStore) (now : Int) (key : RLKey)
    (limit : Nat) (window_seconds : Int) : RateLimitStatus :=
  let valid := (st.rate_limits key).filter (fun ts => now - window_seconds < ts)
  let remaining := limit - valid.length
  let reset_at :=
    match valid.min? with
    | some oldest => oldest + window_seconds
    | none => now + window_seconds
  { limit := limit, remaining := remaining, reset_at := reset_at,
    window_seconds := window_seconds }

/-- Which level raised, standing for the distinct message prefixes
(`User` / `Session` / `Channel` rate limit exceeded) of the three raise
sites. -/
inductive RLLevel
  | user
  | session
  | channel
deriving DecidableEq, Repr

/-- The payload of the Python `RateLimitExceeded` exception. -/
structure RateLimitExceeded where
  level : RLLevel
  retry_after : Int
  limit : Nat
  remaining : Nat
  reset_at : Int
deriving DecidableEq, Repr

/-- `RateLimiter.check_user_limit`. -/
def check_user_limit (st : RLStore) (now : Int) (user_id : String) :
    Except RateLimitExceeded RateLimitStatus × RLStore :=
  let key := RLKey.user user_id
  let r := check_rate_limit st now key USER_LIMIT WINDOW_SECONDS
  let status := get_rate_limit_status r.2 now key USER_LIMIT WINDOW_SECONDS
  if r.1 then (Except.ok status, r.2)
  else
    (Except.error
      { level := RLLevel.user, retry_after := status.reset_at - now,
        limit := status.limit, remaining := status.remaining,
        reset_at := status.reset_at }, r.2)

/-- `RateLimiter.check_session_limit`. -/
def check_session_limit (st : RLStore) (now : Int) (session_id : String) :
    Except RateLimitExceeded RateLimitStatus × RLStore :=
  let key := RLKey.session session_id
  let r := check_rate_limit st now key SESSION_LIMIT WINDOW_SECONDS
  let status := get_rate_limit_status r.2 now key SESSION_LIMIT WINDOW_SECONDS
  if r.1 then (Except.ok status, r.2)
  else
    (Except.error
      { level := RLLevel.session, retry_after := status.reset_at - now,
        limit := status.limit, remaining := status.remaining,
        reset_at := status.reset_at }, r.2)

/-- `RateLimiter.check_channel_limit` (keyed by channel plus user). -/
def check_channel_limit (st : RLStore) (now : Int) (channel user_id : String) :
    Except RateLimitExceeded RateLimitStatus × RLStore :=
  let key := RLKey.channel channel user_id
  let r := check_rate_limit st now key CHANNEL_LIMIT WINDOW_SECONDS
  let status := get_rate_limit_status r.2 now key CHANNEL_LIMIT WINDOW_SECONDS
  if r.1 then (Except.ok status, r.2)
  else
    (Except.error
      { level := RLLevel.channel, retry_after := status.reset_at - now,
        limit := status.limit, remaining := status.remaining,
        reset_at := status.reset_at }, r.2)

/-- `RateLimiter.check_all_limits`: user → session → channel, stopping at
the first raised `RateLimitExceeded` (the raise propagates before the
later checks run). -/
def check_all_limits (st : RLStore) (now : Int)
    (user_id session_id channel : String) :
    Except RateLimitExceeded (RateLimitStatus × RateLimitStatus × RateLimitStatus) × RLStore :=
  match check_user_limit st now user_id with
  | (Except.error e, st1) => (Except.error e, st1)
  | (Except.ok user_status, st1) =>
      match check_session_limit st1 now session_id with
      | (Except.error e, st2) => (Except.error e, st2)
      | (Except.ok session_status, st2) =>
          match check_channel_limit st2 now channel user_id with
          | (Except.error e, st3) => (Except.error e, st3)
          | (Except.ok channel_status, st3) =>
              (Except.ok (user_status, session_status, channel_status), st3)

/-! ## Messages (models/base.py, storage/memory_store.py) -/

/-- `Message` (pydantic metadata omitted: no embedded code reads it). -/
structure Message where
  id : String
  session_id : String
  content : String
  type : MessageType
  timestamp : Int
  status : MessageStatus
  channel : ChannelType
deriving DecidableEq, Repr

/-- The message slice of `MemoryStore`. -/
structure MStore where
  messages : List (String × Message)
  session_messages : List (String × List String)
deriving DecidableEq, Repr

/-- `MemoryStore.get_session_messages`.  Python runs `if limit:` — both
`None` and `0` skip the slice — and slices `messages[-limit:]`, which for
positive `limit` keeps the last `min(limit, len)` entries, i.e.
`drop (len - limit)` with truncated subtraction. -/
def get_session_messages (st : MStore) (session_id : String)
    (limit : Option Nat) : List Message :=
  let message_ids := (dget st.session_messages session_id).getD []
  let messages := message_ids.filterMap (dget st.messages)
  match limit with
  | some l => if l = 0 then messages else messages.drop (messages.length - l)
  | none => messages

/-- `StateSyncService.get_conversation_history`: fetches with the limit,
then optionally filters out SYSTEM messages (after the limit was
applied). -/
def get_conversation_history (st : MStore) (session_id : String)
    (limit : Option Nat) (include_system : Bool) : List Message :=
  let messages := get_session_messages st session_id limit
  if include_system then messages
  else messages.filter (fun m => m.type ≠ MessageType.system)

/-! ## Delivery attempts and the orchestrator send loop
(services/channel_orchestrator.py, storage/memory_store.py) -/

/-- Modelled from the spec: the `DeliveryAttempt` record type is imported
from `models.base` by the orchestrator and the store, but its class
declaration is not under src/.  Fields follow the data-model section of
the spec (id, message id, session id, channel, status, attempt number,
timestamp, optional error text) and the keyword arguments of the
constructor call in `ChannelOrchestrator.send_message`. -/
structure DeliveryAttempt where
  id : String
  message_id : String
  session_id : String
  channel : ChannelType
  status : MessageStatus
  attempt_number : Nat
  attempted_at : Int
  error_message : Option String
deriving DecidableEq, Repr

/-- The delivery slice of `MemoryStore`. -/
structure DStore where
  delivery_attempts : List (String × DeliveryAttempt)
  message_attempts : List (String × List String)
deriving DecidableEq, Repr

def empty_dstore : DStore := { delivery_attempts := [], message_attempts := [] }

/-- `MemoryStore.create_delivery_attempt`: stores the attempt under its id
and unconditionally appends the id to the per-message index — also when
the id is already indexed (the orchestrator calls this a second time to
update the status of an attempt). -/
def create_delivery_attempt (s : DStore) (attempt : DeliveryAttempt) : DStore :=
  let new_attempts := dset s.delivery_attempts attempt.id attempt
  let new_index :=
    match dget s.message_attempts attempt.message_id with
    | some ids => dset s.message_attempts attempt.message_id (ids ++ [attempt.id])
    | none => dset s.message_attempts attempt.message_id [attempt.id]
  { delivery_attempts := new_attempts, message_attempts := new_index }

/-- `MemoryStore.get_message_delivery_attempts`: resolves the per-message
id index (duplicates included) against the attempt dict. -/
def get_message_delivery_attempts (s : DStore) (message_id : String) :
    List DeliveryAttempt :=
  ((dget s.message_attempts message_id).getD []).filterMap
    (dget s.delivery_attempts)

/-- The distinct `DeliveryAttempt` records stored for a message (the
entries of the `delivery_attempts` dict with this message id). -/
def delivery_records (s : DStore) (message_id : String) : List DeliveryAttempt :=
  (s.delivery_attempts.filter (fun p => p.2.message_id = message_id)).map
    (fun p => p.2)

/-- How one channel behaves towards this message, abstracting the
provider objects:
`unavailable` — `_get_or_create_channel` returned `None`;
`blocked` — `circuit_breaker.can_execute()` of the channel is `False`;
`sends r` — `channel.send_message` returned the boolean `r`;
`raises e` — `channel.send_message` raised `ChannelError(e)`. -/
inductive ChannelBehavior
  | unavailable
  | blocked
  | sends (result : Bool)
  | raises (error : String)
deriving DecidableEq, Repr

/-- The outcome of `ChannelOrchestrator.send_message`: the returned
boolean, or the `ChannelError` that propagated. -/
inductive SendResult
  | ok (success : Bool)
  | errChannel (message : String)
deriving DecidableEq, Repr

/-- `ChannelOrchestrator.fallback_priority`. -/
def fallback_priority : List ChannelType :=
  [ChannelType.websocket, ChannelType.slack, ChannelType.email]

/-- `ChannelOrchestrator._get_channel_priority`. -/
def get_channel_priority (preferred_channel : Option ChannelType)
    (enable_fallback : Bool) : List ChannelType :=
  match enable_fallback, preferred_channel with
  | false, some c => [c]
  | _, _ =>
      let priority := match preferred_channel with
        | some c => [c]
        | none => []
      if enable_fallback then
        fallback_priority.foldl
          (fun acc ct => if acc.contains ct then acc else acc ++ [ct]) priority
      else priority

/-- The `for channel_type in channels_to_try` loop of
`ChannelOrchestrator.send_message`.  `mk_id` supplies the `uuid4()` for
the `n`-th fresh attempt record and `now` the shared timestamp.  The two
`store.create_delivery_attempt` calls per attempt (creation, then the
status update) are both kept. -/
def send_message_loop (env : ChannelType → ChannelBehavior)
    (enable_fallback : Bool) (message : Message) (mk_id : Nat → String)
    (now : Int) :
    List ChannelType → Nat → Option String → DStore → SendResult × DStore
  | [], _, last_error, s =>
      match last_error with
      | some e =>
          (SendResult.errChannel
            ("Failed to send message through any channel: " ++ e), s)
      | none => (SendResult.ok false, s)
  | ct :: rest, n, last_error, s =>
      if ct = ChannelType.websocket then
        send_message_loop env enable_fallback message mk_id now rest n last_error s
      else
        match env ct with
        | ChannelBehavior.unavailable =>
            send_message_loop env enable_fallback message mk_id now rest n last_error s
        | ChannelBehavior.blocked =>
            send_message_loop env enable_fallback message mk_id now rest n last_error s
        | ChannelBehavior.sends result =>
            let attempt : DeliveryAttempt :=
              { id := mk_id n, message_id := message.id,
                session_id := message.session_id, channel := ct,
                status := MessageStatus.sent,
                attempt_number := (get_message_delivery_attempts s message.id).length + 1,
                attempted_at := now, error_message := none }
            let s1 := create_delivery_attempt s attempt
            if result then
              (SendResult.ok true,
               create_delivery_attempt s1 { attempt with status := MessageStatus.delivered })
            else
              send_message_loop env enable_fallback message mk_id now rest (n + 1) last_error s1
        | ChannelBehavior.raises e =>
            let attempt : DeliveryAttempt :=
              { id := mk_id n, message_id := message.id,
                session_id := message.session_id, channel := ct,
                status := MessageStatus.sent,
                attempt_number := (get_message_delivery_attempts s message.id).length + 1,
                attempted_at := now, error_message := none }
            let s1 := create_delivery_attempt s attempt
            let s2 := create_delivery_attempt s1
              { attempt with status := MessageStatus.failed, error_message := some e }
            if enable_fallback then
              send_message_loop env enable_fallback message mk_id now rest (n + 1) (some e) s2
            else
              (SendResult.errChannel e, s2)

/-- `ChannelOrchestrator.send_message`. -/
def send_message (env : ChannelType → ChannelBehavior) (s : DStore)
    (message : Message) (preferred_channel : Option ChannelType)
    (enable_fallback : Bool) (mk_id : Nat → String) (now : Int) :
    SendResult × DStore :=
  send_message_loop env enable_fallback message mk_id now
    (get_channel_priority preferred_channel enable_fallback) 0 none s

/-! ## Channel retry wrapper (services/channels/base_channel.py) -/

/-- The mutable per-channel state of `BaseChannel` that
`execute_with_retry` touches. -/
structure ChannelState where
  circuit_breaker : CircuitBreaker
  status : ChannelStatus
  error_count : Nat
  success_count : Nat
deriving DecidableEq, Repr

/-- A freshly constructed channel: default breaker, `INACTIVE`, zero
counters. -/
def fresh_channel : ChannelState :=
  { circuit_breaker := CircuitBreaker.default, status := ChannelStatus.inactive,
    error_count := 0, success_count := 0 }

/-- What `await operation(**kwargs)` does on a given attempt:
returns a value, raises `ChannelRateLimitError`, or raises some other
exception. -/
inductive OpOutcome
  | ok (result : Bool)
  | rate_limited (msg : String)
  | raises (error : String)
deriving DecidableEq, Repr

/-- The exceptions `execute_with_retry` can propagate. -/
inductive RetryError
  | circuit_blocked (state : CircuitState)
  | rate_limit (msg : String)
  | exhausted (attempts : Nat) (last_error : Option String)
deriving DecidableEq, Repr

/-- Result of `execute_with_retry`: the returned value or raised
exception, the channel state afterwards, and the list of backoff delays
slept (in order), in seconds. -/
structure RetryOutcome where
  result : Except RetryError Bool
  channel : ChannelState
  sleeps : List ℚ

/-- The `for attempt in range(max_retries + 1)` loop of
`BaseChannel.execute_with_retry`.  `fuel` counts the iterations left
(`max_retries + 1 - attempt`); `times` gives the wall clock at each
attempt (the breaker reads `datetime.now` per call). -/
def execute_with_retry_loop (op : Nat → OpOutcome) (times : Nat → Int)
    (max_retries : Nat) (base_delay max_delay : ℚ) :
    Nat → Nat → ChannelState → List ℚ → Option String → RetryOutcome
  | 0, _, ch, sleeps, last_error =>
      { result := Except.error (RetryError.exhausted (max_retries + 1) last_error),
        channel := ch, sleeps := sleeps.reverse }
  | fuel + 1, attempt, ch, sleeps, last_error =>
      let ce := ch.circuit_breaker.can_execute (times attempt)
      let ch1 := { ch with circuit_breaker := ce.2 }
      if ce.1 = false then
        { result := Except.error (RetryError.circuit_blocked ch1.circuit_breaker.state),
          channel := ch1, sleeps := sleeps.reverse }
      else
        match op attempt with
        | OpOutcome.ok result =>
            { result := Except.ok result,
              channel :=
                { ch1 with circuit_breaker := ch1.circuit_breaker.record_success,
                           success_count := ch1.success_count + 1,
                           status := ChannelStatus.active },
              sleeps := sleeps.reverse }
        | OpOutcome.rate_limited m =>
            { result := Except.error (RetryError.rate_limit m),
              channel :=
                { ch1 with circuit_breaker := ch1.circuit_breaker.record_failure (times attempt),
                           error_count := ch1.error_count + 1 },
              sleeps := sleeps.reverse }
        | OpOutcome.raises e =>
            let ch2 :=
              { ch1 with circuit_breaker := ch1.circuit_breaker.record_failure (times attempt),
                         error_count := ch1.error_count + 1 }
            if attempt < max_retries then
              execute_with_retry_loop op times max_retries base_delay max_delay
                fuel (attempt + 1) ch2
                (min (base_delay * 2 ^ attempt) max_delay :: sleeps) (some e)
            else
              execute_with_retry_loop op times max_retries base_delay max_delay
                fuel (attempt + 1) { ch2 with status := ChannelStatus.error }
                sleeps (some e)

/-- `BaseChannel.execute_with_retry` (defaults in the source:
`max_retries=3`, `base_delay=1.0`, `max_delay=60.0`). -/
def execute_with_retry (ch : ChannelState) (op : Nat → OpOutcome)
    (times : Nat → Int) (max_retries : Nat) (base_delay max_delay : ℚ) :
    RetryOutcome :=
  execute_with_retry_loop op times max_retries base_delay max_delay
    (max_retries + 1) 0 ch [] none

/-! ## Sessions (services/session_service.py, services/validation.py,
storage/memory_store.py) -/

/-- `ChatSession` (pydantic metadata and the embedded message /
feedback-request lists omitted: the embedded creation path only writes
them empty and never reads them). -/
structure ChatSession where
  id : String
  user_id : String
  status : SessionStatus
  created_at : Int
  updated_at : Int
  preferred_channel : ChannelType
deriving DecidableEq, Repr

/-- The session slice of `MemoryStore`. -/
structure SStore where
  sessions : List (String × ChatSession)
  user_sessions : List (String × List String)
deriving DecidableEq, Repr

/-- `MemoryStore.create_session`: stores the session and adds its id to
the per-user id set. -/
def store_create_session (st : SStore) (session : ChatSession) : SStore :=
  let new_sessions := dset st.sessions session.id session
  let new_index :=
    match dget st.user_sessions session.user_id with
    | some ids =>
        if ids.contains session.id then st.user_sessions
        else dset st.user_sessions session.user_id (ids ++ [session.id])
    | none => dset st.user_sessions session.user_id [session.id]
  { sessions := new_sessions, user_sessions := new_index }

/-- `MemoryStore.get_user_active_sessions`: the indexed ids of the user that
resolve to a stored session with status ACTIVE. -/
def get_user_active_sessions (st : SStore) (user_id : String) :
    List ChatSession :=
  ((dget st.user_sessions user_id).getD []).filterMap (fun sid =>
    match dget st.sessions sid with
    | some s => if s.status = SessionStatus.active then some s else none
    | none => none)

/-- `ChatSessionValidator.MAX_CONCURRENT_SESSIONS`. -/
def MAX_CONCURRENT_SESSIONS : Nat := 3

/-- `ChatSessionValidator.validate_create`.  (The Python
`not session.preferred_channel` test can never fire: every `ChannelType`
enum member is a non-empty string and therefore truthy.) -/
def validate_session_create (session : ChatSession)
    (active_session_count : Nat) : Except String Unit :=
  if session.user_id = "" then
    Except.error "ChatSession must have a valid user_id"
  else if MAX_CONCURRENT_SESSIONS ≤ active_session_count then
    Except.error "User cannot have more than 3 active sessions"
  else
    Except.ok ()

/-- `SessionService.create_session`.  The `uuid4()` and
`datetime.now(timezone.utc)` are passed in as `new_id` and `now`; a
raised `ValidationError` is the `Except.error` result, and the store is
only written after validation passes. -/
def create_session (st : SStore) (user_id : String)
    (preferred_channel : ChannelType) (new_id : String) (now : Int) :
    Except String ChatSession × SStore :=
  let active_sessions := get_user_active_sessions st user_id
  let session : ChatSession :=
    { id := new_id, user_id := user_id, status := SessionStatus.active,
      created_at := now, updated_at := now,
      preferred_channel := preferred_channel }
  match validate_session_create session active_sessions.length with
  | Except.error e => (Except.error e, st)
  | Except.ok _ => (Except.ok session, store_create_session st session)

/-! ## Store well-formedness -/

/-- Every stored feedback request sits under its own id as key — true of
every store the service builds, since `create_feedback_request` and
`update_feedback_request` both key records by `.id`. -/
def requests_keyed (s : FStore) : Prop :=
  ∀ p ∈ s.feedback_requests, p.2.id = p.1

instance (s : FStore) : Decidable (requests_keyed s) := by
  unfold requests_keyed
  infer_instance

/-! ## Concrete scenarios -/

/-- A pending approval request expiring 48 h (172800 s) after creation. -/
def req_c1 : FeedbackRequest :=
  { id := "r1", session_id := "s1", type := FeedbackType.approval,
    status := FeedbackStatus.pending, prompt := "deploy?", created_at := 0,
    expires_at := 172800, channels := [ChannelType.email] }

/-- The first (already stored) response to `req_c1`. -/
def resp_c1a : FeedbackResponse :=
  { id := "a", request_id := "r1", content := "yes", timestamp := 10,
    channel := ChannelType.email }

/-- A late second response to `req_c1`. -/
def resp_c1b : FeedbackResponse :=
  { id := "b", request_id := "r1", content := "no", timestamp := 20,
    channel := ChannelType.slack }

/-- Store state with `req_c1` still PENDING but one response already
stored (the window between storing the first response and updating the
request status, or an externally stored response). -/
def fstore_c1 : FStore :=
  { feedback_requests := [("r1", req_c1)]
    feedback_responses := [("a", resp_c1a)]
    request_responses := [("r1", ["a"])] }

/-- `req_c1` after settling to APPROVED. -/
def req_c1s : FeedbackRequest := { req_c1 with status := FeedbackStatus.approved }

/-- Store state with the request already settled. -/
def fstore_c1s : FStore :=
  { feedback_requests := [("r1", req_c1s)]
    feedback_responses := [("a", resp_c1a)]
    request_responses := [("r1", ["a"])] }

/-- A request that expired at time 100 but is still PENDING. -/
def req_c5 : FeedbackRequest :=
  { id := "r5", session_id := "s5", type := FeedbackType.approval,
    status := FeedbackStatus.pending, prompt := "proceed?", created_at := 0,
    expires_at := 100, channels := [ChannelType.email] }

/-- Store holding only the expired-but-PENDING `req_c5`, no responses. -/
def fstore_c5 : FStore :=
  { feedback_requests := [("r5", req_c5)]
    feedback_responses := []
    request_responses := [] }

/-- A response to `req_c5` arriving at time 200, past the expiry. -/
def resp_c5 : FeedbackResponse :=
  { id := "b5", request_id := "r5", content := "ok", timestamp := 200,
    channel := ChannelType.slack }

/-- A fresh pending approval request with no responses. -/
def req_c7 : FeedbackRequest :=
  { id := "r7", session_id := "s7", type := FeedbackType.approval,
    status := FeedbackStatus.pending, prompt := "approve?", created_at := 0,
    expires_at := 172800, channels := [ChannelType.email, ChannelType.slack] }

/-- Store holding only the fresh `req_c7`. -/
def fstore_c7 : FStore :=
  { feedback_requests := [("r7", req_c7)]
    feedback_responses := []
    request_responses := [] }

/-- A "yes" response to `req_c7`. -/
def resp_c7 : FeedbackResponse :=
  { id := "c", request_id := "r7", content := "yes", timestamp := 5,
    channel := ChannelType.slack }

/-- An agent message to deliver. -/
def msg_demo : Message :=
  { id := "m1", session_id := "s1", content := "hello", type := MessageType.agent,
    timestamp := 0, status := MessageStatus.sent, channel := ChannelType.email }

/-- Deterministic stand-in for `uuid4()`: the `n`-th fresh attempt id. -/
def demo_ids : Nat → String := fun n => "att" ++ toString n

/-- Channel environment for the fallback scenario: the preferred channel A
(slack) raises `ChannelError(e)`, the fallback channel B (email) delivers,
and websocket is skipped by the loop anyway. -/
def env_a_fails_b_ok (e : String) : ChannelType → ChannelBehavior := fun ct =>
  match ct with
  | ChannelType.slack => ChannelBehavior.raises e
  | ChannelType.email => ChannelBehavior.sends true
  | ChannelType.websocket => ChannelBehavior.unavailable

/-- Rate-limit store whose user-level window for `"u1"` is exactly full
(30 events at time 0). -/
def rl_user_full : RLStore :=
  { rate_limits := fun k =>
      if k = RLKey.user "u1" then List.replicate 30 0 else [] }

/-- Rate-limit store whose session-level window for `"s1"` is exactly full
(10 events at time 0) while the user level is free. -/
def rl_session_full : RLStore :=
  { rate_limits := fun k =>
      if k = RLKey.session "s1" then List.replicate 10 0 else [] }

/-- Rate-limit store whose channel-level window for channel `"email"` and
user `"u1"` is exactly full (20 events at time 0) while the user and
session levels are free. -/
def rl_channel_full : RLStore :=
  { rate_limits := fun k =>
      if k = RLKey.channel "email" "u1" then List.replicate 20 0 else [] }

/-- An ACTIVE session for user `"u9"`. -/
def session_u9 (sid : String) : ChatSession :=
  { id := sid, user_id := "u9", status := SessionStatus.active,
    created_at := 0, updated_at := 0, preferred_channel := ChannelType.email }

/-- Store in which user `"u9"` already has three ACTIVE sessions. -/
def sstore_c9 : SStore :=
  { sessions := [("sa", session_u9 "sa"), ("sb", session_u9 "sb"), ("sc", session_u9 "sc")]
    user_sessions := [("u9", ["sa", "sb", "sc"])] }

/-- Store in which user `"u9"` has two ACTIVE sessions. -/
def sstore_c9b : SStore :=
  { sessions := [("sa", session_u9 "sa"), ("sb", session_u9 "sb")]
    user_sessions := [("u9", ["sa", "sb"])] }

/-- A message of the given type in session `"s10"`. -/
def msg_s10 (mid : String) (t : MessageType) : Message :=
  { id := mid, session_id := "s10", content := "x", type := t,
    timestamp := 0, status := MessageStatus.sent, channel := ChannelType.websocket }

/-- Message store: session `"s10"` holds user, system, user messages in
insertion order. -/
def mstore_c10 : MStore :=
  { messages := [("x", msg_s10 "x" MessageType.user),
                 ("y", msg_s10 "y" MessageType.system),
                 ("z", msg_s10 "z" MessageType.user)]
    session_messages := [("s10", ["x", "y", "z"])] }

/-! ## Dict lemmas -/

theorem dget_dset_self {α : Type} (d : List (String × α)) (k : String) (v : α) :
    dget (dset d k v) k = some v := by
  induction d with
  | nil => simp [dget, dset]
  | cons p rest ih =>
      obtain ⟨k1, v1⟩ := p
      by_cases h : k1 = k
      · simp [dget, dset, h]
      · simp [dget, dset, h, ih]

theorem dget_dset_ne {α : Type} (d : List (String × α)) (k k2 : String) (v : α)
    (h : k2 ≠ k) : dget (dset d k v) k2 = dget d k2 := by
  induction d with
  | nil => simp [dget, dset, Ne.symm h]
  | cons p rest ih =>
      obtain ⟨k1, v1⟩ := p
      by_cases h1 : k1 = k
      · subst h1
        simp [dget, dset, Ne.symm h]
      · by_cases h2 : k1 = k2
        · subst h2
          simp [dget, dset, h1]
        · simp [dget, dset, h1, h2, ih]

theorem dget_mem {α : Type} (d : List (String × α)) (k : String) (v : α)
    (h : dget d k = some v) : (k, v) ∈ d := by
  induction d with
  | nil => simp [dget] at h
  | cons p rest ih =>
      obtain ⟨k1, v1⟩ := p
      by_cases h1 : k1 = k
      · subst h1
        simp [dget] at h
        simp [h]
      · simp [dget, h1] at h
        exact List.mem_cons_of_mem _ (ih h)

theorem mem_dset {α : Type} (d : List (String × α)) (k : String) (v : α)
    (p : String × α) (h : p ∈ dset d k v) : p = (k, v) ∨ p ∈ d := by
  induction d with
  | nil => simpa [dset] using h
  | cons q rest ih =>
      obtain ⟨k1, v1⟩ := q
      by_cases h1 : k1 = k
      · subst h1
        simp only [dset, if_pos rfl] at h
        rcases List.mem_cons.mp h with h2 | h2
        · exact Or.inl h2
        · exact Or.inr (List.mem_cons_of_mem _ h2)
      · simp only [dset, if_neg h1] at h
        rcases List.mem_cons.mp h with h2 | h2
        · exact Or.inr (h2 ▸ List.mem_cons_self _ _)
        · rcases ih h2 with h3 | h3
          · exact Or.inl h3
          · exact Or.inr (List.mem_cons_of_mem _ h3)

/-! ## Circuit breaker lemmas (claim C2) -/

/-- `record_failure` can never leave the breaker in HALF_OPEN, so its
trailing probe-count increment is unreachable. -/
theorem record_failure_state_not_half_open (cb : CircuitBreaker) (now : Int) :
    (cb.record_failure now).state ≠ CircuitState.half_open := by
  unfold CircuitBreaker.record_failure
  rcases hs : cb.state with _ | _ | _ <;> simp [hs] <;> split <;> simp

/-- No breaker operation ever increments `half_open_calls`: starting from
`half_open_calls = 0` every operation leaves it `0`. -/
theorem half_open_calls_stays_zero (cb : CircuitBreaker) (now : Int)
    (h : cb.half_open_calls = 0) :
    ((cb.can_execute now).2.half_open_calls = 0) ∧
    (cb.record_success.half_open_calls = 0) ∧
    ((cb.record_failure now).half_open_calls = 0) := by
  refine ⟨?_, ?_, ?_⟩
  · unfold CircuitBreaker.can_execute
    rcases cb.state with _ | _ | _ <;>
      simp [h] <;> rcases cb.last_failure_time with _ | t <;> simp [h] <;> split <;> simp [h]
  · unfold CircuitBreaker.record_success
    rcases cb.state with _ | _ | _ <;> simp [h]
  · unfold CircuitBreaker.record_failure
    rcases hs : cb.state with _ | _ | _ <;> simp [hs, h] <;> split <;> simp [h]

/-- Claim C2 (code bug).  The claim: in HALF_OPEN, `can_execute()` returns
true only while fewer than `half_open_max_calls` (default 3) probes have
been made in the episode, and returns false once that many probes have
occurred without the circuit closing or reopening.  The code: nothing ever
increments `half_open_calls` (its only increment in `record_failure` sits
behind a state test that can no longer hold, cf.
`record_failure_state_not_half_open`), so after five failures open the
default breaker at time 0 and the timeout elapses, the first probe at time
60 flips it to HALF_OPEN and the second, third AND fourth probes are all
still permitted, with the probe counter stuck at 0. -/
theorem C2_fourth_half_open_probe_still_allowed :
    cb_probe1.1 = true ∧ cb_probe1.2.state = CircuitState.half_open ∧
    cb_probe2.1 = true ∧ cb_probe3.1 = true ∧
    cb_probe4.1 = true ∧ cb_probe4.2.half_open_calls = 0 := by
  decide

/-! ## Feedback store lemmas -/

theorem requests_keyed_dget (s : FStore) (k : String) (r : FeedbackRequest)
    (hk : requests_keyed s) (h : dget s.feedback_requests k = some r) :
    r.id = k :=
  hk (k, r) (dget_mem _ _ _ h)

theorem requests_keyed_update (s : FStore) (r : FeedbackRequest)
    (hk : requests_keyed s) : requests_keyed (update_feedback_request s r) := by
  unfold update_feedback_request
  split
  · intro p hp
    rcases mem_dset _ _ _ _ hp with h | h
    · subst h
      rfl
    · exact hk p h
  · exact hk

theorem requests_keyed_create_response (s : FStore) (resp : FeedbackResponse)
    (hk : requests_keyed s) :
    requests_keyed (create_feedback_response s resp) := hk

theorem get_feedback_request_update_ne (s : FStore) (r : FeedbackRequest)
    (k : String) (h : k ≠ r.id) :
    get_feedback_request (update_feedback_request s r) k =
      get_feedback_request s k := by
  unfold get_feedback_request update_feedback_request
  split
  · exact dget_dset_ne _ _ _ _ h
  · rfl

theorem get_feedback_request_update_self (s : FStore) (r : FeedbackRequest)
    (h : (dget s.feedback_requests r.id).isSome = true) :
    get_feedback_request (update_feedback_request s r) r.id = some r := by
  unfold get_feedback_request update_feedback_request
  simp [h, dget_dset_self]

theorem update_feedback_request_responses_eq (s : FStore) (r : FeedbackRequest) :
    (update_feedback_request s r).feedback_responses = s.feedback_responses := by
  unfold update_feedback_request
  split <;> rfl

theorem get_feedback_request_create_response (s : FStore)
    (resp : FeedbackResponse) (k : String) :
    get_feedback_request (create_feedback_response s resp) k =
      get_feedback_request s k := rfl

/-! ## Branch equations of `process_feedback_response` and
`submit_feedback_response` -/

theorem process_not_pending (s : FStore) (rid : String)
    (resp : FeedbackResponse) (req : FeedbackRequest)
    (hget : get_feedback_request s rid = some req)
    (hst : req.status ≠ FeedbackStatus.pending) :
    process_feedback_response s rid resp = (false, s) := by
  unfold process_feedback_response
  rw [hget]
  simp [hst]

theorem process_late (s : FStore) (rid : String)
    (resp : FeedbackResponse) (req : FeedbackRequest)
    (hget : get_feedback_request s rid = some req)
    (hst : req.status = FeedbackStatus.pending)
    (hne : get_request_responses s rid ≠ []) :
    process_feedback_response s rid resp = (false, s) := by
  unfold process_feedback_response
  rw [hget]
  simp [hst, hne]

theorem process_accept (s : FStore) (rid : String)
    (resp : FeedbackResponse) (req : FeedbackRequest)
    (hget : get_feedback_request s rid = some req)
    (hst : req.status = FeedbackStatus.pending)
    (he : get_request_responses s rid = []) :
    process_feedback_response s rid resp =
      (true, update_feedback_request (create_feedback_response s resp)
        { req with status :=
            if ["APPROVE", "APPROVED", "YES"].contains (py_upper resp.content) then
              FeedbackStatus.approved
            else if ["REJECT", "REJECTED", "NO"].contains (py_upper resp.content) then
              FeedbackStatus.rejected
            else FeedbackStatus.approved }) := by
  unfold process_feedback_response
  rw [hget]
  simp [hst, he]

theorem submit_expired (s : FStore) (now : Int) (rid content : String)
    (ch : ChannelType) (nid : String) (req : FeedbackRequest)
    (hget : get_feedback_request s rid = some req)
    (hst : req.status = FeedbackStatus.pending)
    (hlt : req.expires_at < now) :
    submit_feedback_response s now rid content ch nid =
      (Except.error "FeedbackRequest has expired",
        update_feedback_request s { req with status := FeedbackStatus.expired }) := by
  unfold submit_feedback_response
  rw [hget]
  simp [hst, hlt]

/-! ## Invariance of settled requests under `process_feedback_response` -/

theorem process_preserves_keyed (s : FStore) (rid : String)
    (resp : FeedbackResponse) (hk : requests_keyed s) :
    requests_keyed (process_feedback_response s rid resp).2 := by
  rcases hget : get_feedback_request s rid with _ | req
  · have : process_feedback_response s rid resp = (false, s) := by
      unfold process_feedback_response
      rw [hget]
    rw [this]
    exact hk
  · by_cases hst : req.status = FeedbackStatus.pending
    · by_cases he : get_request_responses s rid = []
      · rw [process_accept s rid resp req hget hst he]
        exact requests_keyed_update _ _ (requests_keyed_create_response _ _ hk)
      · rw [process_late s rid resp req hget hst he]
        exact hk
    · rw [process_not_pending s rid resp req hget hst]
      exact hk

theorem process_preserves_settled (s : FStore) (rid2 : String)
    (resp : FeedbackResponse) (rid : String) (req : FeedbackRequest)
    (hk : requests_keyed s)
    (hget : get_feedback_request s rid = some req)
    (hst : req.status ≠ FeedbackStatus.pending) :
    get_feedback_request (process_feedback_response s rid2 resp).2 rid = some req := by
  rcases hget2 : get_feedback_request s rid2 with _ | req2
  · have : process_feedback_response s rid2 resp = (false, s) := by
      unfold process_feedback_response
      rw [hget2]
    rw [this]
    exact hget
  · by_cases hp : req2.status = FeedbackStatus.pending
    · by_cases he : get_request_responses s rid2 = []
      · rw [process_accept s rid2 resp req2 hget2 hp he]
        have hne : rid ≠ rid2 := by
          intro heq
          subst heq
          rw [hget] at hget2
          cases hget2
          exact hst hp
        have hid2 : req2.id = rid2 := requests_keyed_dget s rid2 req2 hk hget2
        rw [get_feedback_request_update_ne]
        · exact hget
        · simpa [hid2] using hne
      · rw [process_late s rid2 resp req2 hget2 hp he]
        exact hget
    · rw [process_not_pending s rid2 resp req2 hget2 hp]
      exact hget

/-! ## Claim C1 -/

/-- Claim C1 (corrected).  The claim asserted that a further call on a
PENDING request that already has a stored response "stores the late
response for audit, returns false, and leaves the status unchanged"; in
the code the late-response branch returns `False` without storing
anything, so the first conjunct here strengthens "status unchanged" to
"the whole store is unchanged" (late response not stored).  The second
conjunct gives the once-only part: a request whose status has left
PENDING is never touched again by any sequence of calls. -/
theorem C1_late_response_rejected_and_status_settles_once :
    (∀ (s : FStore) (rid : String) (resp : FeedbackResponse) (req : FeedbackRequest),
        get_feedback_request s rid = some req →
        req.status = FeedbackStatus.pending →
        get_request_responses s rid ≠ [] →
        process_feedback_response s rid resp = (false, s)) ∧
    (∀ (s : FStore) (calls : List (String × FeedbackResponse)) (rid : String)
        (req : FeedbackRequest),
        requests_keyed s →
        get_feedback_request s rid = some req →
        req.status ≠ FeedbackStatus.pending →
        get_feedback_request (process_all s calls) rid = some req) := by
  constructor
  · intro s rid resp req hget hp hne
    exact process_late s rid resp req hget hp hne
  · intro s calls rid req hk hget hst
    induction calls generalizing s with
    | nil => simpa [process_all] using hget
    | cons c rest ih =>
        have h1 : requests_keyed (process_feedback_response s c.1 c.2).2 :=
          process_preserves_keyed s c.1 c.2 hk
        have h2 : get_feedback_request (process_feedback_response s c.1 c.2).2 rid = some req :=
          process_preserves_settled s c.1 c.2 rid req hk hget hst
        simpa [process_all] using ih _ h1 h2

/-- Claim C1, counterexample to the claim as stated: with `req_c1` still
PENDING and one stored response, a second call returns false and does NOT
store the late response `"b"` — the store is left with only the first
response, refuting "store the late response for audit". -/
theorem C1_counterexample_late_response_not_stored :
    (process_feedback_response fstore_c1 "r1" resp_c1b).1 = false ∧
    dget (process_feedback_response fstore_c1 "r1" resp_c1b).2.feedback_responses "b" = none ∧
    get_request_responses (process_feedback_response fstore_c1 "r1" resp_c1b).2 "r1" =
      [resp_c1a] := by
  decide

/-- Claim C1, witness: the amended theorem applied at the concrete stores
`fstore_c1` (late response) and `fstore_c1s` (settled request). -/
theorem C1_witness :
    process_feedback_response fstore_c1 "r1" resp_c1b = (false, fstore_c1) ∧
    get_feedback_request (process_all fstore_c1s [("r1", resp_c1b)]) "r1" = some req_c1s :=
  ⟨C1_late_response_rejected_and_status_settles_once.1 fstore_c1 "r1" resp_c1b req_c1
      (by decide) (by decide) (by decide),
   C1_late_response_rejected_and_status_settles_once.2 fstore_c1s [("r1", resp_c1b)] "r1" req_c1s
      (by decide) (by decide) (by decide)⟩

/-- Updating a stored request with a record carrying the same id makes
that record the one found at the original key. -/
theorem get_after_update_flip (s : FStore) (rid : String)
    (req req2 : FeedbackRequest)
    (hk : requests_keyed s)
    (hget : get_feedback_request s rid = some req)
    (hid2 : req2.id = req.id) :
    get_feedback_request (update_feedback_request s req2) rid = some req2 := by
  have hid : req.id = rid := requests_keyed_dget s rid req hk hget
  have hsome : (dget s.feedback_requests req2.id).isSome = true := by
    have hget2 : dget s.feedback_requests rid = some req := hget
    rw [hid2, hid, hget2]
    rfl
  have h2 := get_feedback_request_update_self s req2 hsome
  rw [hid2, hid] at h2
  exact h2

/-- After an accepted first response, the updated request record is found
at its key. -/
theorem get_after_accept (s : FStore) (rid : String) (resp : FeedbackResponse)
    (req req2 : FeedbackRequest)
    (hk : requests_keyed s)
    (hget : get_feedback_request s rid = some req)
    (hid2 : req2.id = req.id) :
    get_feedback_request
      (update_feedback_request (create_feedback_response s resp) req2) rid =
      some req2 := by
  have hid : req.id = rid := requests_keyed_dget s rid req hk hget
  have hsome :
      (dget (create_feedback_response s resp).feedback_requests req2.id).isSome = true := by
    show (dget s.feedback_requests req2.id).isSome = true
    have hget2 : dget s.feedback_requests rid = some req := hget
    rw [hid2, hid, hget2]
    rfl
  have h2 := get_feedback_request_update_self (create_feedback_response s resp) req2 hsome
  rw [hid2, hid] at h2
  exact h2

/-! ## Claim C7 -/

/-- Claim C7 (confirmed): when the first response to a PENDING request is
accepted, the new status is the case-insensitive membership test of the
code — upper-cased content in APPROVE/APPROVED/YES gives APPROVED, in
REJECT/REJECTED/NO gives REJECTED, anything else gives APPROVED. -/
theorem C7_first_response_content_classification :
    ∀ (s : FStore) (rid : String) (resp : FeedbackResponse) (req : FeedbackRequest),
      requests_keyed s →
      get_feedback_request s rid = some req →
      req.status = FeedbackStatus.pending →
      get_request_responses s rid = [] →
      (process_feedback_response s rid resp).1 = true ∧
      get_feedback_request (process_feedback_response s rid resp).2 rid =
        some { req with status :=
          if ["APPROVE", "APPROVED", "YES"].contains (py_upper resp.content) then
            FeedbackStatus.approved
          else if ["REJECT", "REJECTED", "NO"].contains (py_upper resp.content) then
            FeedbackStatus.rejected
          else FeedbackStatus.approved } := by
  intro s rid resp req hk hget hst he
  have heq := process_accept s rid resp req hget hst he
  constructor
  · rw [heq]
  · rw [heq]
    exact get_after_accept s rid resp req _ hk hget rfl

/-- Claim C7, witness: a first response with content `"yes"` to the
concrete pending request settles it APPROVED. -/
theorem C7_witness :
    (process_feedback_response fstore_c7 "r7" resp_c7).1 = true ∧
    get_feedback_request (process_feedback_response fstore_c7 "r7" resp_c7).2 "r7" =
      some { req_c7 with status := FeedbackStatus.approved } := by
  have h := C7_first_response_content_classification fstore_c7 "r7" resp_c7 req_c7
    (by decide) (by decide) (by decide) (by decide)
  exact ⟨h.1, h.2.trans (by decide)⟩

/-! ## Claim C5 -/

/-- Claim C5 (corrected, restricted to the session-service path):
submitting against an expired-but-PENDING request through
`SessionService.submit_feedback_response` first flips the status to
EXPIRED, then rejects — the raised error carries the store whose only
change is that flip, the request reads back EXPIRED, and no response was
stored.  (`StateSyncService.process_feedback_response`, the other
submission path the claim covers, performs no expiry check at all — see
the counterexample.) -/
theorem C5_submit_flips_expired_then_rejects :
    ∀ (s : FStore) (now : Int) (rid content : String) (ch : ChannelType)
      (nid : String) (req : FeedbackRequest),
      requests_keyed s →
      get_feedback_request s rid = some req →
      req.status = FeedbackStatus.pending →
      req.expires_at < now →
      submit_feedback_response s now rid content ch nid =
        (Except.error "FeedbackRequest has expired",
          update_feedback_request s { req with status := FeedbackStatus.expired }) ∧
      (get_feedback_request (submit_feedback_response s now rid content ch nid).2 rid).map
        FeedbackRequest.status = some FeedbackStatus.expired ∧
      (submit_feedback_response s now rid content ch nid).2.feedback_responses =
        s.feedback_responses := by
  intro s now rid content ch nid req hk hget hst hlt
  have heq := submit_expired s now rid content ch nid req hget hst hlt
  refine ⟨heq, ?_, ?_⟩
  · have h3 := get_after_update_flip s rid req
      { req with status := FeedbackStatus.expired } hk hget rfl
    rw [heq]
    simp [h3]
  · rw [heq]
    exact update_feedback_request_responses_eq s _

/-- Claim C5, counterexample to the claim as stated: `req_c5` expired at
time 100 and is still PENDING; a response arriving at time 200 through
`StateSyncService.process_feedback_response` (which never consults the
expiry time) is ACCEPTED and the request settles APPROVED — it is neither
flipped to EXPIRED nor rejected. -/
theorem C5_counterexample_expired_request_accepts_response :
    req_c5.expires_at < resp_c5.timestamp ∧
    (process_feedback_response fstore_c5 "r5" resp_c5).1 = true ∧
    (get_feedback_request (process_feedback_response fstore_c5 "r5" resp_c5).2 "r5").map
      FeedbackRequest.status = some FeedbackStatus.approved := by
  decide

/-- Claim C5, witness: the amended theorem applied at the concrete expired
request, with the submission arriving at time 200. -/
theorem C5_witness :
    submit_feedback_response fstore_c5 200 "r5" "ok" ChannelType.slack "b5" =
      (Except.error "FeedbackRequest has expired",
        update_feedback_request fstore_c5 { req_c5 with status := FeedbackStatus.expired }) ∧
    (get_feedback_request
      (submit_feedback_response fstore_c5 200 "r5" "ok" ChannelType.slack "b5").2 "r5").map
      FeedbackRequest.status = some FeedbackStatus.expired ∧
    (submit_feedback_response fstore_c5 200 "r5" "ok" ChannelType.slack "b5").2.feedback_responses =
      fstore_c5.feedback_responses :=
  C5_submit_flips_expired_then_rejects fstore_c5 200 "r5" "ok" ChannelType.slack "b5" req_c5
    (by decide) (by decide) (by decide) (by decide)

/-! ## Claims C3 and C6 -/

/-- Claim C3 (confirmed): with fallback enabled, preferred channel A
(slack) raising `ChannelError(e)` and fallback channel B (email) healthy,
`send_message` returns success and the store holds exactly two
`DeliveryAttempt` records for the message — that of A FAILED carrying the
error text, that of B DELIVERED; with fallback disabled on the same
scenario the channel error propagates unchanged and only the FAILED record
of A exists (B was never attempted). -/
theorem C3_fallback_delivers_and_records_two_attempts :
    ∀ (e : String),
      (send_message (env_a_fails_b_ok e) empty_dstore msg_demo
        (some ChannelType.slack) true demo_ids 0).1 = SendResult.ok true ∧
      (delivery_records (send_message (env_a_fails_b_ok e) empty_dstore msg_demo
        (some ChannelType.slack) true demo_ids 0).2 "m1").map
          (fun a => (a.channel, a.status)) =
        [(ChannelType.slack, MessageStatus.failed),
         (ChannelType.email, MessageStatus.delivered)] ∧
      (delivery_records (send_message (env_a_fails_b_ok e) empty_dstore msg_demo
        (some ChannelType.slack) true demo_ids 0).2 "m1").map
          (fun a => a.error_message) = [some e, none] ∧
      (send_message (env_a_fails_b_ok e) empty_dstore msg_demo
        (some ChannelType.slack) false demo_ids 0).1 = SendResult.errChannel e ∧
      (delivery_records (send_message (env_a_fails_b_ok e) empty_dstore msg_demo
        (some ChannelType.slack) false demo_ids 0).2 "m1").map
          (fun a => (a.channel, a.status)) =
        [(ChannelType.slack, MessageStatus.failed)] := by
  intro e
  exact ⟨rfl, rfl, rfl, rfl, rfl⟩

/-- Claim C3, witness: the scenario instantiated with the error text
`"boom"`. -/
theorem C3_witness :
    (send_message (env_a_fails_b_ok "boom") empty_dstore msg_demo
      (some ChannelType.slack) true demo_ids 0).1 = SendResult.ok true ∧
    (delivery_records (send_message (env_a_fails_b_ok "boom") empty_dstore msg_demo
      (some ChannelType.slack) true demo_ids 0).2 "m1").map
        (fun a => (a.channel, a.status)) =
      [(ChannelType.slack, MessageStatus.failed),
       (ChannelType.email, MessageStatus.delivered)] :=
  ⟨(C3_fallback_delivers_and_records_two_attempts "boom").1,
   (C3_fallback_delivers_and_records_two_attempts "boom").2.1⟩

/-- Claim C6 (code bug).  The claim: attempt numbers of one message and its
delivery attempts are `count of previously recorded attempts + 1`, hence
exactly 1, 2, 3, ... in recording order.  The code: the orchestrator calls
`store.create_delivery_attempt` a second time to update an attempt and its
status (the call site is commented `# Update`), but that method
unconditionally appends the attempt id to the per-message index, so after
one failed channel the index holds the first attempt twice and the second
attempt of the second channel is numbered `len(index) + 1 = 3`.  In the two-channel
fallback scenario the two stored records carry attempt numbers 1 and 3,
and the id index holds four entries. -/
theorem C6_attempt_numbers_skip_after_update :
    (delivery_records (send_message (env_a_fails_b_ok "boom") empty_dstore msg_demo
      (some ChannelType.slack) true demo_ids 0).2 "m1").map
        (fun a => a.attempt_number) = [1, 3] ∧
    (get_message_delivery_attempts (send_message (env_a_fails_b_ok "boom") empty_dstore
      msg_demo (some ChannelType.slack) true demo_ids 0).2 "m1").length = 4 := by
  exact ⟨rfl, rfl⟩

/-! ## Claim C4 -/

/-- A rejected or consumed check only rewrites its own key. -/
theorem check_rate_limit_other_key (st : RLStore) (now : Int) (key k2 : RLKey)
    (limit : Nat) (w : Int) (h : k2 ≠ key) :
    (check_rate_limit st now key limit w).2.rate_limits k2 = st.rate_limits k2 := by
  simp only [check_rate_limit]
  split <;> simp [h]

/-- Claim C4 (confirmed): `check_all_limits` evaluates user → session →
channel in that order and the raise of the first violated level
propagates before any later level is touched: when the user level is
violated the error carries the user level and the session and channel
keys keep exactly their previous timestamp lists; when the user level
passes and the session level is violated, the error carries the session
level and the channel key keeps its previous timestamp list; and when the
user and session levels both pass and the channel level is violated, the
error carries the channel level. -/
theorem C4_first_violated_level_raises_without_consuming_later_levels :
    ∀ (st : RLStore) (now : Int) (uid sid chan : String),
      ((check_rate_limit st now (RLKey.user uid) USER_LIMIT WINDOW_SECONDS).1 = false →
        (∃ e, (check_all_limits st now uid sid chan).1 = Except.error e ∧
          e.level = RLLevel.user) ∧
        (check_all_limits st now uid sid chan).2.rate_limits (RLKey.session sid) =
          st.rate_limits (RLKey.session sid) ∧
        (check_all_limits st now uid sid chan).2.rate_limits (RLKey.channel chan uid) =
          st.rate_limits (RLKey.channel chan uid)) ∧
      ((check_rate_limit st now (RLKey.user uid) USER_LIMIT WINDOW_SECONDS).1 = true →
        (check_rate_limit (check_rate_limit st now (RLKey.user uid) USER_LIMIT
          WINDOW_SECONDS).2 now (RLKey.session sid) SESSION_LIMIT WINDOW_SECONDS).1 = false →
        (∃ e, (check_all_limits st now uid sid chan).1 = Except.error e ∧
          e.level = RLLevel.session) ∧
        (check_all_limits st now uid sid chan).2.rate_limits (RLKey.channel chan uid) =
          st.rate_limits (RLKey.channel chan uid)) ∧
      ((check_rate_limit st now (RLKey.user uid) USER_LIMIT WINDOW_SECONDS).1 = true →
        (check_rate_limit (check_rate_limit st now (RLKey.user uid) USER_LIMIT
          WINDOW_SECONDS).2 now (RLKey.session sid) SESSION_LIMIT WINDOW_SECONDS).1 = true →
        (check_rate_limit (check_rate_limit (check_rate_limit st now (RLKey.user uid)
          USER_LIMIT WINDOW_SECONDS).2 now (RLKey.session sid) SESSION_LIMIT
          WINDOW_SECONDS).2 now (RLKey.channel chan uid) CHANNEL_LIMIT
          WINDOW_SECONDS).1 = false →
        ∃ e, (check_all_limits st now uid sid chan).1 = Except.error e ∧
          e.level = RLLevel.channel) := by
  intro st now uid sid chan
  refine ⟨?_, ?_, ?_⟩
  · intro h
    have hs : ∀ k2 : RLKey, k2 ≠ RLKey.user uid →
        (check_all_limits st now uid sid chan).2.rate_limits k2 = st.rate_limits k2 := by
      intro k2 hk2
      simp only [check_all_limits, check_user_limit, h, if_false, Bool.false_eq_true]
      exact check_rate_limit_other_key st now (RLKey.user uid) k2 _ _ hk2
    refine ⟨?_, hs _ (by simp), hs _ (by simp)⟩
    simp only [check_all_limits, check_user_limit, h, if_false, Bool.false_eq_true]
    exact ⟨_, rfl, rfl⟩
  · intro h h2
    have hs : ∀ k2 : RLKey, k2 ≠ RLKey.user uid → k2 ≠ RLKey.session sid →
        (check_all_limits st now uid sid chan).2.rate_limits k2 = st.rate_limits k2 := by
      intro k2 hk2 hk3
      simp only [check_all_limits, check_user_limit, check_session_limit, h, h2,
        if_true, if_false, Bool.false_eq_true]
      rw [check_rate_limit_other_key _ now (RLKey.session sid) k2 _ _ hk3]
      exact check_rate_limit_other_key st now (RLKey.user uid) k2 _ _ hk2
    refine ⟨?_, hs _ (by simp) (by simp)⟩
    simp only [check_all_limits, check_user_limit, check_session_limit, h, h2,
      if_true, if_false, Bool.false_eq_true]
    exact ⟨_, rfl, rfl⟩
  · intro h h2 h3
    simp only [check_all_limits, check_user_limit, check_session_limit,
      check_channel_limit, h, h2, h3, if_true, if_false, Bool.false_eq_true]
    exact ⟨_, rfl, rfl⟩

/-- Claim C4, witness: with the user window full (30 events), the call
rejects at the user level and leaves the session and channel lists
untouched; with the user window free and the session window full (10
events), it rejects at the session level and leaves the channel list
untouched; with the user and session windows free and the channel window
full (20 events), it rejects at the channel level. -/
theorem C4_witness :
    ((∃ e, (check_all_limits rl_user_full 0 "u1" "s1" "email").1 = Except.error e ∧
        e.level = RLLevel.user) ∧
      (check_all_limits rl_user_full 0 "u1" "s1" "email").2.rate_limits (RLKey.session "s1") =
        rl_user_full.rate_limits (RLKey.session "s1") ∧
      (check_all_limits rl_user_full 0 "u1" "s1" "email").2.rate_limits (RLKey.channel "email" "u1") =
        rl_user_full.rate_limits (RLKey.channel "email" "u1")) ∧
    ((∃ e, (check_all_limits rl_session_full 0 "u1" "s1" "email").1 = Except.error e ∧
        e.level = RLLevel.session) ∧
      (check_all_limits rl_session_full 0 "u1" "s1" "email").2.rate_limits (RLKey.channel "email" "u1") =
        rl_session_full.rate_limits (RLKey.channel "email" "u1")) ∧
    (∃ e, (check_all_limits rl_channel_full 0 "u1" "s1" "email").1 = Except.error e ∧
      e.level = RLLevel.channel) :=
  ⟨(C4_first_violated_level_raises_without_consuming_later_levels
      rl_user_full 0 "u1" "s1" "email").1 (by decide),
   (C4_first_violated_level_raises_without_consuming_later_levels
      rl_session_full 0 "u1" "s1" "email").2.1 (by decide) (by decide),
   (C4_first_violated_level_raises_without_consuming_later_levels
      rl_channel_full 0 "u1" "s1" "email").2.2 (by decide) (by decide) (by decide)⟩

/-! ## Claim C8 -/

/-- Claim C8 (confirmed): `execute_with_retry` never retries a
`ChannelRateLimitError`.  First conjunct: at ANY attempt the retry loop
reaches — later ones included, whatever state and pending backoff history
it arrived with — an admitted rate-limited operation makes it record one
breaker failure, bump the error count, add no new sleep and propagate the
exception at once.  Second conjunct: the same read off `execute_with_retry`
for a rate-limit error on the first attempt.  Third conjunct: end to end,
an operation that raises generic errors on attempts 0 and 1 and a
rate-limit error on attempt 2 is retried twice with the two backoff delays
and then propagates the rate-limit error immediately (three recorded
failures, two sleeps, no third retry).  Fourth conjunct: an operation that
keeps raising a generic exception is retried up to the bound (default
`max_retries = 3`, so 4 attempts) with delays
`min(base_delay * 2 ^ attempt, max_delay)` between consecutive attempts,
after which the channel is marked ERROR and a terminal error names the
exhausted attempt count. -/
theorem C8_rate_limit_propagates_immediately_with_exp_backoff_otherwise :
    (∀ (op : Nat → OpOutcome) (times : Nat → Int) (max_retries : Nat)
        (base_delay max_delay : ℚ) (fuel attempt : Nat) (ch : ChannelState)
        (sleeps : List ℚ) (last_error : Option String) (msg : String),
        (ch.circuit_breaker.can_execute (times attempt)).1 = true →
        op attempt = OpOutcome.rate_limited msg →
        execute_with_retry_loop op times max_retries base_delay max_delay
          (fuel + 1) attempt ch sleeps last_error =
          { result := Except.error (RetryError.rate_limit msg),
            channel :=
              { circuit_breaker :=
                  ((ch.circuit_breaker.can_execute (times attempt)).2).record_failure
                    (times attempt),
                status := ch.status,
                error_count := ch.error_count + 1,
                success_count := ch.success_count },
            sleeps := sleeps.reverse }) ∧
    (∀ (ch : ChannelState) (op : Nat → OpOutcome) (times : Nat → Int)
        (max_retries : Nat) (base_delay max_delay : ℚ) (msg : String),
        (ch.circuit_breaker.can_execute (times 0)).1 = true →
        op 0 = OpOutcome.rate_limited msg →
        execute_with_retry ch op times max_retries base_delay max_delay =
          { result := Except.error (RetryError.rate_limit msg),
            channel :=
              { circuit_breaker :=
                  ((ch.circuit_breaker.can_execute (times 0)).2).record_failure (times 0),
                status := ch.status,
                error_count := ch.error_count + 1,
                success_count := ch.success_count },
            sleeps := [] }) ∧
    (∀ (e msg : String) (times : Nat → Int) (base_delay max_delay : ℚ),
        execute_with_retry fresh_channel
          (fun n => if n < 2 then OpOutcome.raises e else OpOutcome.rate_limited msg)
          times 3 base_delay max_delay =
          { result := Except.error (RetryError.rate_limit msg),
            channel :=
              { circuit_breaker :=
                  { failure_threshold := 5, timeout_seconds := 60, half_open_max_calls := 3,
                    state := CircuitState.closed, failure_count := 3,
                    last_failure_time := some (times 2), half_open_calls := 0 },
                status := ChannelStatus.inactive, error_count := 3, success_count := 0 },
            sleeps := [min (base_delay * 2 ^ 0) max_delay,
                       min (base_delay * 2 ^ 1) max_delay] }) ∧
    (∀ (e : String) (times : Nat → Int) (base_delay max_delay : ℚ),
        (execute_with_retry fresh_channel (fun _ => OpOutcome.raises e) times 3
          base_delay max_delay).result =
            Except.error (RetryError.exhausted 4 (some e)) ∧
        (execute_with_retry fresh_channel (fun _ => OpOutcome.raises e) times 3
          base_delay max_delay).sleeps =
            [min (base_delay * 2 ^ 0) max_delay,
             min (base_delay * 2 ^ 1) max_delay,
             min (base_delay * 2 ^ 2) max_delay] ∧
        (execute_with_retry fresh_channel (fun _ => OpOutcome.raises e) times 3
          base_delay max_delay).channel.error_count = 4 ∧
        (execute_with_retry fresh_channel (fun _ => OpOutcome.raises e) times 3
          base_delay max_delay).channel.status = ChannelStatus.error) := by
  have hrun : ∀ (e : String) (times : Nat → Int) (base_delay max_delay : ℚ),
      execute_with_retry fresh_channel (fun _ => OpOutcome.raises e) times 3
        base_delay max_delay =
      { result := Except.error (RetryError.exhausted 4 (some e)),
        channel :=
          { circuit_breaker :=
              { failure_threshold := 5, timeout_seconds := 60, half_open_max_calls := 3,
                state := CircuitState.closed, failure_count := 4,
                last_failure_time := some (times 3), half_open_calls := 0 },
            status := ChannelStatus.error, error_count := 4, success_count := 0 },
        sleeps := [min (base_delay * 2 ^ 0) max_delay,
                   min (base_delay * 2 ^ 1) max_delay,
                   min (base_delay * 2 ^ 2) max_delay] } := by
    intro e times base_delay max_delay
    simp [execute_with_retry, execute_with_retry_loop, fresh_channel,
      CircuitBreaker.default, CircuitBreaker.can_execute, CircuitBreaker.record_failure]
  have hstep : ∀ (op : Nat → OpOutcome) (times : Nat → Int) (max_retries : Nat)
      (base_delay max_delay : ℚ) (fuel attempt : Nat) (ch : ChannelState)
      (sleeps : List ℚ) (last_error : Option String) (msg : String),
      (ch.circuit_breaker.can_execute (times attempt)).1 = true →
      op attempt = OpOutcome.rate_limited msg →
      execute_with_retry_loop op times max_retries base_delay max_delay
        (fuel + 1) attempt ch sleeps last_error =
        { result := Except.error (RetryError.rate_limit msg),
          channel :=
            { circuit_breaker :=
                ((ch.circuit_breaker.can_execute (times attempt)).2).record_failure
                  (times attempt),
              status := ch.status,
              error_count := ch.error_count + 1,
              success_count := ch.success_count },
          sleeps := sleeps.reverse } := by
    intro op times max_retries base_delay max_delay fuel attempt ch sleeps last_error msg hce hop
    simp only [execute_with_retry_loop, hce, hop, Bool.true_eq_false, if_false]
  refine ⟨hstep, ?_, ?_, ?_⟩
  · intro ch op times max_retries base_delay max_delay msg hce hop
    have h := hstep op times max_retries base_delay max_delay max_retries 0 ch [] none
      msg hce hop
    simpa [execute_with_retry] using h
  · intro e msg times base_delay max_delay
    simp [execute_with_retry, execute_with_retry_loop, fresh_channel,
      CircuitBreaker.default, CircuitBreaker.can_execute, CircuitBreaker.record_failure]
  · intro e times base_delay max_delay
    rw [hrun e times base_delay max_delay]
    exact ⟨rfl, rfl, rfl, rfl⟩

/-- Claim C8, witness: a rate-limited attempt on a fresh channel at time 0
propagates at once with one recorded failure and no new sleep — both
through the retry loop at an arbitrary reached position and through the
top-level `execute_with_retry`. -/
theorem C8_witness :
    execute_with_retry_loop (fun _ => OpOutcome.rate_limited "slow down") (fun _ => 0)
      3 1 60 (3 + 1) 0 fresh_channel [] none =
      { result := Except.error (RetryError.rate_limit "slow down"),
        channel :=
          { circuit_breaker :=
              ((fresh_channel.circuit_breaker.can_execute 0).2).record_failure 0,
            status := fresh_channel.status,
            error_count := fresh_channel.error_count + 1,
            success_count := fresh_channel.success_count },
        sleeps := List.reverse [] } ∧
    execute_with_retry fresh_channel (fun _ => OpOutcome.rate_limited "slow down")
      (fun _ => 0) 3 1 60 =
      { result := Except.error (RetryError.rate_limit "slow down"),
        channel :=
          { circuit_breaker :=
              ((fresh_channel.circuit_breaker.can_execute 0).2).record_failure 0,
            status := fresh_channel.status,
            error_count := fresh_channel.error_count + 1,
            success_count := fresh_channel.success_count },
        sleeps := [] } :=
  ⟨C8_rate_limit_propagates_immediately_with_exp_backoff_otherwise.1
      (fun _ => OpOutcome.rate_limited "slow down") (fun _ => 0) 3 1 60 3 0
      fresh_channel [] none "slow down" rfl rfl,
   C8_rate_limit_propagates_immediately_with_exp_backoff_otherwise.2.1
      fresh_channel (fun _ => OpOutcome.rate_limited "slow down") (fun _ => 0)
      3 1 60 "slow down" rfl rfl⟩

/-! ## Claim C9 -/

theorem contains_eq_false_of_not_mem (l : List String) (a : String)
    (h : a ∉ l) : l.contains a = false := by
  induction l with
  | nil => rfl
  | cons b rest ih =>
      have h1 : a ≠ b := fun hh => h (hh ▸ List.mem_cons_self b rest)
      have h2 : a ∉ rest := fun hh => h (List.mem_cons_of_mem _ hh)
      simp [List.contains_cons, ih h2, h1, h2]

/-- Storing a fresh ACTIVE session raises the active count of the user by
exactly one. -/
theorem active_count_after_create (st : SStore) (uid : String)
    (session : ChatSession)
    (huid : session.user_id = uid)
    (hnone : dget st.sessions session.id = none)
    (hnot : session.id ∉ (dget st.user_sessions uid).getD [])
    (hactive : session.status = SessionStatus.active) :
    (get_user_active_sessions (store_create_session st session) uid).length =
      (get_user_active_sessions st uid).length + 1 := by
  subst huid
  have hcongr : ∀ ids : List String, session.id ∉ ids →
      ids.filterMap (fun sid =>
        match dget (dset st.sessions session.id session) sid with
        | some s => if s.status = SessionStatus.active then some s else none
        | none => none) =
      ids.filterMap (fun sid =>
        match dget st.sessions sid with
        | some s => if s.status = SessionStatus.active then some s else none
        | none => none) := by
    intro ids hni
    refine List.filterMap_congr ?_
    intro sid hsid
    have hne : sid ≠ session.id := fun hh => hni (hh ▸ hsid)
    rw [dget_dset_ne _ _ _ _ hne]
  rcases hids : dget st.user_sessions session.user_id with _ | ids
  · unfold store_create_session get_user_active_sessions
    simp only [hids, Option.getD_none]
    simp [dget_dset_self, hactive]
  · have hnot2 : session.id ∉ ids := by
      rw [hids] at hnot
      simpa using hnot
    unfold store_create_session get_user_active_sessions
    simp only [hids]
    rw [contains_eq_false_of_not_mem ids session.id hnot2]
    simp only [Bool.false_eq_true, if_false, dget_dset_self, Option.getD_some,
      List.filterMap_append]
    rw [hcongr ids hnot2]
    simp [dget_dset_self, hactive]

/-- Claim C9 (confirmed): a user who already has three ACTIVE sessions is
refused — `create_session` raises a `ValidationError` and stores nothing —
and consequently the operation can never push the ACTIVE session
count above three (given the new uuid is fresh). -/
theorem C9_three_active_sessions_cap :
    (∀ (st : SStore) (uid : String) (pc : ChannelType) (nid : String) (now : Int),
        (get_user_active_sessions st uid).length = 3 →
        (∃ e, (create_session st uid pc nid now).1 = Except.error e) ∧
        (create_session st uid pc nid now).2 = st) ∧
    (∀ (st : SStore) (uid : String) (pc : ChannelType) (nid : String) (now : Int),
        (get_user_active_sessions st uid).length ≤ 3 →
        dget st.sessions nid = none →
        nid ∉ (dget st.user_sessions uid).getD [] →
        (get_user_active_sessions (create_session st uid pc nid now).2 uid).length ≤ 3) := by
  constructor
  · intro st uid pc nid now h
    by_cases huid : uid = ""
    · constructor
      · exact ⟨"ChatSession must have a valid user_id",
          by simp [create_session, validate_session_create, huid]⟩
      · simp [create_session, validate_session_create, huid]
    · have hcnt : MAX_CONCURRENT_SESSIONS ≤ (get_user_active_sessions st uid).length := by
        rw [h]
        decide
      constructor
      · exact ⟨"User cannot have more than 3 active sessions",
          by simp [create_session, validate_session_create, huid, hcnt]⟩
      · simp [create_session, validate_session_create, huid, hcnt]
  · intro st uid pc nid now hle hnone hnot
    by_cases huid : uid = ""
    · simpa [create_session, validate_session_create, huid] using hle
    · by_cases hcnt : MAX_CONCURRENT_SESSIONS ≤ (get_user_active_sessions st uid).length
      · simpa [create_session, validate_session_create, huid, hcnt] using hle
      · have hred : (create_session st uid pc nid now).2 =
            store_create_session st
              { id := nid, user_id := uid, status := SessionStatus.active,
                created_at := now, updated_at := now, preferred_channel := pc } := by
          simp [create_session, validate_session_create, huid, hcnt]
        rw [hred, active_count_after_create st uid _ rfl hnone hnot rfl]
        simp only [MAX_CONCURRENT_SESSIONS, not_le] at hcnt
        omega

/-- Claim C9, witness: user `"u9"` with three ACTIVE sessions is refused
with the store unchanged, and creating a fresh session for a user with two
ACTIVE sessions keeps the count within three. -/
theorem C9_witness :
    ((∃ e, (create_session sstore_c9 "u9" ChannelType.email "sd" 5).1 = Except.error e) ∧
      (create_session sstore_c9 "u9" ChannelType.email "sd" 5).2 = sstore_c9) ∧
    (get_user_active_sessions
      (create_session sstore_c9b "u9" ChannelType.email "sd" 5).2 "u9").length ≤ 3 :=
  ⟨C9_three_active_sessions_cap.1 sstore_c9 "u9" ChannelType.email "sd" 5 (by decide),
   C9_three_active_sessions_cap.2 sstore_c9b "u9" ChannelType.email "sd" 5
     (by decide) (by decide) (by decide)⟩

/-! ## Claim C10 -/

/-- Claim C10 (confirmed): with more than `limit` stored messages and a
non-zero limit, `get_session_messages` returns the LAST `limit` messages
in insertion order (`drop (length - limit)`), and
`get_conversation_history` with system messages excluded applies the
filter AFTER the limit — so the history is the filter of those last
`limit` messages and can be shorter than `limit`. -/
theorem C10_limit_keeps_last_messages_and_filter_applies_after :
    ∀ (st : MStore) (sid : String) (l : Nat),
      l ≠ 0 →
      l < (get_session_messages st sid none).length →
      get_session_messages st sid (some l) =
        (get_session_messages st sid none).drop
          ((get_session_messages st sid none).length - l) ∧
      (get_session_messages st sid (some l)).length = l ∧
      get_conversation_history st sid (some l) false =
        ((get_session_messages st sid none).drop
          ((get_session_messages st sid none).length - l)).filter
          (fun m => m.type ≠ MessageType.system) := by
  intro st sid l hl hlt
  have h1 : get_session_messages st sid (some l) =
      (get_session_messages st sid none).drop
        ((get_session_messages st sid none).length - l) := by
    simp [get_session_messages, hl]
  refine ⟨h1, ?_, ?_⟩
  · rw [h1, List.length_drop]
    omega
  · simp only [get_conversation_history, Bool.false_eq_true, if_false, h1]

/-- Claim C10, witness: session `"s10"` holds [user, system, user]; with
limit 2 the last two messages come back, and excluding system messages
leaves only one message — fewer than the limit. -/
theorem C10_witness :
    get_session_messages mstore_c10 "s10" (some 2) =
      [msg_s10 "y" MessageType.system, msg_s10 "z" MessageType.user] ∧
    (get_session_messages mstore_c10 "s10" (some 2)).length = 2 ∧
    get_conversation_history mstore_c10 "s10" (some 2) false =
      [msg_s10 "z" MessageType.user] ∧
    (get_conversation_history mstore_c10 "s10" (some 2) false).length < 2 := by
  have h := C10_limit_keeps_last_messages_and_filter_applies_after
    mstore_c10 "s10" 2 (by decide) (by decide)
  exact ⟨h.1.trans (by decide), h.2.1, h.2.2.trans (by decide), by decide⟩

end HumanAsTool
